import Mathlib

/-!
Shallow embedding of `src/python/lenscorrection.py` (the `Lenscorrection`
GStreamer element).  External collaborators (the lensfun database, the
OpenCV primitives `addWeighted` / `remap` / `line` / `putText`, and Python
float formatting) are modelled as opaque parameters bundled in `Env`;
the element's own control flow is translated function by function.
Pixel values are triples of naturals, float parameters are rationals.
-/

/-- An RGB pixel value. -/
abbrev RGB := Nat × Nat × Nat

/-- A dense H×W RGB image (numpy array of shape (height, width, 3)). -/
structure Image where
  height : Nat
  width : Nat
  pix : Nat → Nat → RGB

/-- The undistortion coordinate map: one (x, y) source coordinate per
destination pixel, shape height × width × 2 (`mod.apply_geometry_distortion()`). -/
structure UndistMap where
  height : Nat
  width : Nat
  coord : Nat → Nat → Rat × Rat

/-- A camera record from the lensfun database: identified by maker/model,
carries a crop factor, and has a Python string rendering (used by f-strings). -/
structure Camera where
  maker : String
  model : String
  crop_factor : Rat
  pyStr : String
deriving DecidableEq

/-- A lens record from the lensfun database (distortion data is opaque);
`pyStr` is its Python string rendering. -/
structure Lens where
  pyStr : String
deriving DecidableEq

/-- Interpolation flag passed to `cv2.remap`. -/
inductive Interp
  | nearest
  | linear
deriving DecidableEq

/-- A drawing command issued against the overlay image:
`cv2.line(overlay, p1, p2, color, thickness)` or
`cv2.putText(overlay, text, org, font, scale, color, thickness)`. -/
inductive DrawCmd
  | line (p1 p2 : Nat × Nat) (color : RGB) (thickness : Nat)
  | text (msg : String) (org : Nat × Nat) (scale : Nat) (color : RGB) (thickness : Nat)
deriving DecidableEq

/-- A GObject property value as delivered to `do_set_property` /
returned from `do_get_property` (float, bool or string, per `__gproperties__`). -/
inductive PropValue
  | float (q : Rat)
  | bool (b : Bool)
  | str (t : String)
deriving DecidableEq

def PropValue.asFloat : PropValue → Option Rat
  | .float q => some q
  | _ => none

def PropValue.asBool : PropValue → Option Bool
  | .bool b => some b
  | _ => none

def PropValue.asStr : PropValue → Option String
  | .str t => some t
  | _ => none

/-- `Gst.FlowReturn` values used by `do_transform_ip`. -/
inductive FlowReturn
  | OK
  | ERROR
deriving DecidableEq

/-- Outcome of `query_lensfun`; the Python function returns a plain bool,
with the failure category distinguished by the `Gst.error` message
("Camera not found", "Lens not found", generic). -/
inductive QueryResult
  | ok
  | cameraNotFound
  | lensNotFound
  | mapBuildFailed
deriving DecidableEq

/-- The boolean actually returned by `query_lensfun`. -/
def QueryResult.success : QueryResult → Bool
  | .ok => true
  | _ => false

/-- The lensfun database collaborator (`lensfunpy`).  `find_cameras` and
`find_lenses` return ranked candidate lists; `geometry_distortion`
bundles `Modifier(lens, crop, w, h)` + `initialize(focal, aperture,
distance, reverse)` + `apply_geometry_distortion()`, with `none`
modelling an exception anywhere in that block. -/
structure LensfunDB where
  find_cameras : String → String → List Camera
  find_lenses : Camera → Option String → List Lens
  geometry_distortion : Lens → Rat → Nat → Nat → Rat → Rat → Rat → Bool → Option UndistMap

/-- The OpenCV collaborator.  The shape laws record cv2's documented
behaviour: `addWeighted` output has the size of its inputs, `remap`
output has the size of the coordinate map, and in-place drawing
primitives keep the image size. -/
structure CVPrims where
  addWeighted : Image → Rat → Image → Rat → Rat → Image
  remap : Image → UndistMap → Interp → Image
  render : Image → DrawCmd → Image
  addWeighted_height : ∀ a α b β γ, (addWeighted a α b β γ).height = a.height
  addWeighted_width : ∀ a α b β γ, (addWeighted a α b β γ).width = a.width
  remap_height : ∀ img m i, (remap img m i).height = m.height
  remap_width : ∀ img m i, (remap img m i).width = m.width
  render_height : ∀ img c, (render img c).height = img.height
  render_width : ∀ img c, (render img c).width = img.width

/-- Python float formatting (`f"{x}"`) as an opaque function on rationals. -/
structure Env where
  db : LensfunDB
  cv : CVPrims
  fmt : Rat → String

/-- The mutable state of a `Lenscorrection` element: the buffered
properties and geometry set in `__init__` / `do_set_caps`, plus the
attributes `cam`, `lensmodel`, `undistCoords`, `overlay` which are
absent (`none`) until first assigned. -/
structure ElementState where
  width : Nat
  height : Nat
  aperture : Rat
  focallength : Rat
  distance : Rat
  reverse : Bool
  grid : Bool
  cammaker : String
  cammodel : String
  lens : String
  cam : Option Camera
  lensmodel : Option Lens
  undistCoords : Option UndistMap
  overlay : Option Image

/-- `Lenscorrection.__init__`: the DEFAULT_* constants. -/
def initState : ElementState :=
  { width := 1920
    height := 1080
    aperture := (14 : Rat) / 5
    focallength := (5 : Rat) / 2
    distance := 10
    reverse := false
    grid := false
    cammaker := "GoPro"
    cammodel := "HD2"
    lens := ""
    cam := none
    lensmodel := none
    undistCoords := none
    overlay := none }

/-- The lens lookup of `query_lensfun`: `db.find_lenses(cam, lens=self.lens)`
when `self.lens` is truthy (non-empty), else `db.find_lenses(cam)`. -/
def lensQuery (db : LensfunDB) (c : Camera) (lensId : String) : List Lens :=
  if lensId ≠ "" then db.find_lenses c (some lensId) else db.find_lenses c none

/-- `Lenscorrection.query_lensfun`: resolve camera, then lens, then build
the undistortion coordinates; each `try` block that catches an exception
is a `match` on `none`, returning `False` (a non-`ok` result) with the
state as mutated so far. -/
def query_lensfun (db : LensfunDB) (s : ElementState) : ElementState × QueryResult :=
  match (db.find_cameras s.cammaker s.cammodel).head? with
  | none => (s, .cameraNotFound)
  | some c =>
    let s1 := { s with cam := some c }
    match (lensQuery db c s1.lens).head? with
    | none => (s1, .lensNotFound)
    | some lm =>
      let s2 := { s1 with lensmodel := some lm }
      match db.geometry_distortion lm c.crop_factor s2.width s2.height
              s2.focallength s2.aperture s2.distance s2.reverse with
      | none => (s2, .mapBuildFailed)
      | some m => ({ s2 with undistCoords := some m }, .ok)

/-- The `cv2.line` calls of `draw_grid`: for i in range(1,8), a vertical
line at x = stepx*i and a horizontal line at y = stepy*i, blue, thickness 5,
with stepx = int(width/8), stepy = int(height/8). -/
def grid_line_cmds (s : ElementState) : List DrawCmd :=
  (List.range 7).flatMap (fun i =>
    [DrawCmd.line (s.width / 8 * (i + 1), 0) (s.width / 8 * (i + 1), s.height) (0, 0, 255) 5,
     DrawCmd.line (0, s.height / 8 * (i + 1)) (s.width, s.height / 8 * (i + 1)) (0, 0, 255) 5])

/-- The three `cv2.putText` calls of `draw_grid`: camera identity, lens
identity, and the optics summary f-string. -/
def text_cmds (fmt : Rat → String) (s : ElementState) (camStr lensStr : String) : List DrawCmd :=
  [DrawCmd.text camStr (s.width / 8 + 100, s.height / 8 + 50) 1 (255, 255, 255) 5,
   DrawCmd.text lensStr (s.width / 8 + 100, s.height / 8 + 100) 1 (255, 255, 255) 5,
   DrawCmd.text (fmt s.focallength ++ "mm, F" ++ fmt s.aperture ++ ", " ++ fmt s.distance ++ "m")
     (s.width / 8 + 100, s.height / 8 + 150) 1 (255, 255, 255) 5]

/-- All drawing commands issued by a successful `draw_grid`, in source order. -/
def draw_grid_cmds (fmt : Rat → String) (s : ElementState) (camStr lensStr : String) : List DrawCmd :=
  grid_line_cmds s ++ text_cmds fmt s camStr lensStr

/-- `numpy.zeros((h, w, 3), dtype=numpy.uint8)`. -/
def zeros (h w : Nat) : Image :=
  { height := h, width := w, pix := fun _ _ => (0, 0, 0) }

/-- `Lenscorrection.draw_grid`: allocate a zero overlay, draw the grid
lines, then the three text lines.  `f"{self.cam}"` (resp.
`f"{self.lensmodel}"`) raises `AttributeError` when the attribute was
never assigned, leaving the overlay as drawn so far; the returned `Bool`
is `true` for the normal `return True` and `false` when an exception
escapes. -/
def draw_grid (env : Env) (s : ElementState) : ElementState × Bool :=
  let base := (grid_line_cmds s).foldl env.cv.render (zeros s.height s.width)
  match s.cam with
  | none => ({ s with overlay := some base }, false)
  | some c =>
    match s.lensmodel with
    | none =>
      let cmd := DrawCmd.text c.pyStr (s.width / 8 + 100, s.height / 8 + 50) 1 (255, 255, 255) 5
      let ov := env.cv.render base cmd
      ({ s with overlay := some ov }, false)
    | some lm =>
      let ov := (draw_grid_cmds env.fmt s c.pyStr lm.pyStr).foldl env.cv.render
        (zeros s.height s.width)
      ({ s with overlay := some ov }, true)

/-- `Lenscorrection.do_set_caps`: store the announced geometry, run
`query_lensfun` (its boolean result is ignored), then draw the overlay
when the grid flag is set.  Result `some true` is the normal `return
True`; `none` models an exception escaping from `draw_grid`. -/
def do_set_caps (env : Env) (s : ElementState) (w h : Nat) : ElementState × Option Bool :=
  let s1 := { s with width := w, height := h }
  let s2 := (query_lensfun env.db s1).1
  if s2.grid then
    let r := draw_grid env s2
    (r.1, if r.2 then some true else none)
  else (s2, some true)

/-- `Lenscorrection.do_get_property`: the elif chain on the property
name; `none` models the `AttributeError` raised on an unknown name. -/
def do_get_property (s : ElementState) (name : String) : Option PropValue :=
  if name = "aperture" then some (.float s.aperture)
  else if name = "focallength" then some (.float s.focallength)
  else if name = "distance" then some (.float s.distance)
  else if name = "reverse" then some (.bool s.reverse)
  else if name = "grid" then some (.bool s.grid)
  else if name = "cammaker" then some (.str s.cammaker)
  else if name = "cammodel" then some (.str s.cammodel)
  else if name = "lens" then some (.str s.lens)
  else none

/-- `Lenscorrection.do_set_property`: the elif chain storing the value
into the matching field; `none` models the `AttributeError` on an
unknown name (the `as*` projections encode the GObject-declared type of
each property from `__gproperties__`). -/
def do_set_property (s : ElementState) (name : String) (v : PropValue) : Option ElementState :=
  if name = "aperture" then v.asFloat.map (fun q => { s with aperture := q })
  else if name = "focallength" then v.asFloat.map (fun q => { s with focallength := q })
  else if name = "distance" then v.asFloat.map (fun q => { s with distance := q })
  else if name = "reverse" then v.asBool.map (fun b => { s with reverse := b })
  else if name = "grid" then v.asBool.map (fun b => { s with grid := b })
  else if name = "cammaker" then v.asStr.map (fun t => { s with cammaker := t })
  else if name = "cammodel" then v.asStr.map (fun t => { s with cammodel := t })
  else if name = "lens" then v.asStr.map (fun t => { s with lens := t })
  else none

/-- The eight property names declared in `__gproperties__`. -/
def recognizedProps : List String :=
  ["aperture", "focallength", "distance", "reverse", "grid", "cammaker", "cammodel", "lens"]

/-- Whether `v` has the GObject-declared type of property `name`
(per `__gproperties__`: three floats, two bools, three strings). -/
def wellTyped (name : String) (v : PropValue) : Bool :=
  if name = "aperture" ∨ name = "focallength" ∨ name = "distance" then v.asFloat.isSome
  else if name = "reverse" ∨ name = "grid" then v.asBool.isSome
  else if name = "cammaker" ∨ name = "cammodel" ∨ name = "lens" then v.asStr.isSome
  else false

/-- `Lenscorrection.do_transform_ip`.  `buf = none` models a failing
`inbuf.map` (caught as `Gst.MapError`).  The ndarray view requires the
mapped buffer to have exactly the negotiated geometry; a missing
`overlay` / `undistCoords` attribute, a shape mismatch in
`cv2.addWeighted`, and a shape mismatch in `frame[:] = array[:]` all
raise and are caught by the generic handler, returning
`Gst.FlowReturn.ERROR` with the buffer content unchanged.  The element
state is never written, so it is threaded through unchanged. -/
def do_transform_ip (env : Env) (s : ElementState) (buf : Option Image) :
    ElementState × FlowReturn × Option Image :=
  match buf with
  | none => (s, .ERROR, none)
  | some frame =>
    if frame.height = s.height ∧ frame.width = s.width then
      let imgOpt : Option Image :=
        if s.grid then
          match s.overlay with
          | some ov =>
            if ov.height = frame.height ∧ ov.width = frame.width then
              some (env.cv.addWeighted frame 1 ov ((7 : Rat) / 10) 0)
            else none
          | none => none
        else some frame
      match imgOpt with
      | some img =>
        match s.undistCoords with
        | some m =>
          let array := env.cv.remap img m .nearest
          if array.height = frame.height ∧ array.width = frame.width then
            (s, .OK, some array)
          else (s, .ERROR, some frame)
        | none => (s, .ERROR, some frame)
      | none => (s, .ERROR, some frame)
    else (s, .ERROR, some frame)

/-- Modelled from the spec: the StreamingHost (the GStreamer runtime,
not part of this repository) delivers buffers one at a time to the
transform and, per the spec, keeps attempting subsequent frames after a
per-buffer failure. -/
def process_frames (env : Env) (s : ElementState) :
    List (Option Image) → List (FlowReturn × Option Image)
  | [] => []
  | b :: rest => (do_transform_ip env s b).2 :: process_frames env s rest

/-! ### Concrete instances used by witnesses and counterexamples -/

def camW : Camera :=
  { maker := "GoPro", model := "HD2", crop_factor := 1, pyStr := "Camera GoPro HD2" }

def lensW : Lens := { pyStr := "Lens builtin" }

def mapW : UndistMap := { height := 4, width := 4, coord := fun _ _ => (0, 0) }

def frameW : Image := { height := 4, width := 4, pix := fun _ _ => (128, 128, 128) }

def cvW : CVPrims :=
  { addWeighted := fun a _ b β _ =>
      { height := a.height, width := a.width
        pix := fun x y => if β = 0 then a.pix x y else b.pix x y }
    remap := fun img m _ => { height := m.height, width := m.width, pix := img.pix }
    render := fun img _ => img
    addWeighted_height := fun _ _ _ _ _ => rfl
    addWeighted_width := fun _ _ _ _ _ => rfl
    remap_height := fun _ _ _ => rfl
    remap_width := fun _ _ _ => rfl
    render_height := fun _ _ => rfl
    render_width := fun _ _ => rfl }

def dbW : LensfunDB :=
  { find_cameras := fun mk md => if mk = "GoPro" ∧ md = "HD2" then [camW] else []
    find_lenses := fun _ f =>
      match f with
      | none => [lensW]
      | some t => if t = "Lens builtin" then [lensW] else []
    geometry_distortion := fun _ _ w h _ _ _ _ =>
      some { height := h, width := w, coord := fun _ _ => (0, 0) } }

def dbEmptyW : LensfunDB :=
  { find_cameras := fun _ _ => []
    find_lenses := fun _ _ => []
    geometry_distortion := fun _ _ _ _ _ _ _ _ => none }

def dbNoLensW : LensfunDB :=
  { dbW with find_lenses := fun _ _ => [] }

def dbNoGeoW : LensfunDB :=
  { dbW with geometry_distortion := fun _ _ _ _ _ _ _ _ => none }

def fmtW : Rat → String := fun _ => "2.5"

def envW : Env := { db := dbW, cv := cvW, fmt := fmtW }

def envEmptyW : Env := { db := dbEmptyW, cv := cvW, fmt := fmtW }

def envNoGeoW : Env := { db := dbNoGeoW, cv := cvW, fmt := fmtW }

def sW : ElementState := { initState with width := 4, height := 4 }

def sMapW : ElementState := { sW with undistCoords := some mapW }

def sGridW : ElementState :=
  { initState with
    width := 640
    height := 480
    grid := true
    cam := some camW
    lensmodel := some lensW }

/-! ### Helper lemmas -/

/-- `do_transform_ip` never writes the element state. -/
theorem transform_state_eq (env : Env) (s : ElementState) (b : Option Image) :
    (do_transform_ip env s b).1 = s := by
  cases b with
  | none => rfl
  | some f =>
    simp only [do_transform_ip]
    repeat' split
    all_goals rfl

/-- Folding drawing commands over an image preserves its height. -/
theorem foldl_render_height (cv : CVPrims) (cmds : List DrawCmd) (img : Image) :
    (cmds.foldl cv.render img).height = img.height := by
  induction cmds generalizing img with
  | nil => rfl
  | cons c rest ih => simp [List.foldl_cons, ih, cv.render_height]

/-- Folding drawing commands over an image preserves its width. -/
theorem foldl_render_width (cv : CVPrims) (cmds : List DrawCmd) (img : Image) :
    (cmds.foldl cv.render img).width = img.width := by
  induction cmds generalizing img with
  | nil => rfl
  | cons c rest ih => simp [List.foldl_cons, ih, cv.render_width]

/-- Reduction of `query_lensfun` on the fully successful path. -/
theorem query_lensfun_eq_ok (db : LensfunDB) (s : ElementState)
    (c : Camera) (lm : Lens) (m : UndistMap)
    (hc : (db.find_cameras s.cammaker s.cammodel).head? = some c)
    (hl : (lensQuery db c s.lens).head? = some lm)
    (hg : db.geometry_distortion lm c.crop_factor s.width s.height
        s.focallength s.aperture s.distance s.reverse = some m) :
    query_lensfun db s =
      ({ s with cam := some c, lensmodel := some lm, undistCoords := some m }, .ok) := by
  unfold query_lensfun
  rw [hc]
  simp only []
  rw [hl]
  simp only []
  rw [hg]

/-! ### Claims -/

/-- C9: for every property name that is not one of the eight recognized
parameters, both `do_get_property` and `do_set_property` raise
(`AttributeError`, modelled as `none`) synchronously; the setter
produces no updated state, so all element state is unchanged. -/
theorem C9_unknown_property_raises (s : ElementState) (name : String) (v : PropValue)
    (h : name ∉ recognizedProps) :
    do_get_property s name = none ∧ do_set_property s name v = none := by
  simp only [recognizedProps, List.mem_cons, List.not_mem_nil, or_false, not_or] at h
  obtain ⟨h1, h2, h3, h4, h5, h6, h7, h8⟩ := h
  constructor
  · simp [do_get_property, h1, h2, h3, h4, h5, h6, h7, h8]
  · simp [do_set_property, h1, h2, h3, h4, h5, h6, h7, h8]

/-- Witness for C9 at the concrete unknown name "bogus". -/
theorem C9_unknown_property_raises_witness :
    "bogus" ∉ recognizedProps ∧
      (do_get_property initState "bogus" = none ∧
        do_set_property initState "bogus" (.float 1) = none) :=
  ⟨by decide, C9_unknown_property_raises initState "bogus" (.float 1) (by decide)⟩

set_option maxHeartbeats 1600000 in
/-- C10: for every recognized property name and every value of the
declared type, get-after-set returns exactly the value set, and the
setter changes no buffered field other than the named one (all other
gettable properties, the geometry, and the derived state are unchanged). -/
theorem C10_get_after_set (s : ElementState) (name : String) (v : PropValue)
    (h : wellTyped name v = true) :
    ∃ s', do_set_property s name v = some s' ∧ do_get_property s' name = some v ∧
      (∀ n, n ≠ name → do_get_property s' n = do_get_property s n) ∧
      s'.width = s.width ∧ s'.height = s.height ∧ s'.cam = s.cam ∧
      s'.lensmodel = s.lensmodel ∧ s'.undistCoords = s.undistCoords ∧
      s'.overlay = s.overlay := by
  unfold wellTyped at h
  split_ifs at h with h1 h2 h3
  · cases v with
    | float q =>
      rcases h1 with e | e | e <;> subst e <;>
        refine ⟨_, rfl, rfl, ?_, rfl, rfl, rfl, rfl, rfl, rfl⟩ <;>
        (intro n hn
         unfold do_get_property
         split_ifs <;> first | rfl | exact (hn (by assumption)).elim)
    | bool b => simp [PropValue.asFloat] at h
    | str t => simp [PropValue.asFloat] at h
  · cases v with
    | float q => simp [PropValue.asBool] at h
    | bool b =>
      rcases h2 with e | e <;> subst e <;>
        refine ⟨_, rfl, rfl, ?_, rfl, rfl, rfl, rfl, rfl, rfl⟩ <;>
        (intro n hn
         unfold do_get_property
         split_ifs <;> first | rfl | exact (hn (by assumption)).elim)
    | str t => simp [PropValue.asBool] at h
  · cases v with
    | float q => simp [PropValue.asStr] at h
    | bool b => simp [PropValue.asStr] at h
    | str t =>
      rcases h3 with e | e | e <;> subst e <;>
        refine ⟨_, rfl, rfl, ?_, rfl, rfl, rfl, rfl, rfl, rfl⟩ <;>
        (intro n hn
         unfold do_get_property
         split_ifs <;> first | rfl | exact (hn (by assumption)).elim)

/-- Witness for C10 at the concrete property "distance" and value 3. -/
theorem C10_get_after_set_witness :
    wellTyped "distance" (.float 3) = true ∧
      (∃ s', do_set_property initState "distance" (.float 3) = some s' ∧
        do_get_property s' "distance" = some (.float 3) ∧
        (∀ n, n ≠ "distance" → do_get_property s' n = do_get_property initState n) ∧
        s'.width = initState.width ∧ s'.height = initState.height ∧
        s'.cam = initState.cam ∧ s'.lensmodel = initState.lensmodel ∧
        s'.undistCoords = initState.undistCoords ∧ s'.overlay = initState.overlay) :=
  ⟨by decide, C10_get_after_set initState "distance" (.float 3) (by decide)⟩

/-- C3: when camera and lens resolve but the optics-modifier
initialization / geometry-distortion computation fails, `query_lensfun`
reports failure (returns False) and the previously built undistortion
map, if any, is left untouched. -/
theorem C3_map_build_failure_keeps_map (db : LensfunDB) (s : ElementState)
    (c : Camera) (lm : Lens)
    (hc : (db.find_cameras s.cammaker s.cammodel).head? = some c)
    (hl : (lensQuery db c s.lens).head? = some lm)
    (hg : db.geometry_distortion lm c.crop_factor s.width s.height
        s.focallength s.aperture s.distance s.reverse = none) :
    (query_lensfun db s).2.success = false ∧
      (query_lensfun db s).1.undistCoords = s.undistCoords := by
  unfold query_lensfun
  rw [hc]
  simp only []
  rw [hl]
  simp only []
  rw [hg]
  exact ⟨rfl, rfl⟩

/-- Witness for C3: a database that finds the default camera and lens
but fails to compute the distortion geometry. -/
theorem C3_map_build_failure_keeps_map_witness :
    (dbNoGeoW.find_cameras initState.cammaker initState.cammodel).head? = some camW ∧
      (lensQuery dbNoGeoW camW initState.lens).head? = some lensW ∧
      ((query_lensfun dbNoGeoW initState).2.success = false ∧
        (query_lensfun dbNoGeoW initState).1.undistCoords = initState.undistCoords) :=
  ⟨rfl, rfl, C3_map_build_failure_keeps_map dbNoGeoW initState camW lensW rfl rfl rfl⟩

/-- C4: an empty camera lookup fails with the camera-not-found error and
builds no map; a resolved camera with an empty (scoped) lens lookup
fails with the lens-not-found error; in both cases any previously built
map is unmutated. -/
theorem C4_profile_not_found (db : LensfunDB) (s : ElementState) :
    (db.find_cameras s.cammaker s.cammodel = [] →
      query_lensfun db s = (s, .cameraNotFound) ∧
        (query_lensfun db s).1.undistCoords = s.undistCoords) ∧
    (∀ c, (db.find_cameras s.cammaker s.cammodel).head? = some c →
      lensQuery db c s.lens = [] →
      (query_lensfun db s).2 = .lensNotFound ∧
        (query_lensfun db s).1.undistCoords = s.undistCoords) := by
  constructor
  · intro hcam
    unfold query_lensfun
    rw [hcam]
    exact ⟨rfl, rfl⟩
  · intro c hc hl
    unfold query_lensfun
    rw [hc]
    simp only []
    rw [hl]
    exact ⟨rfl, rfl⟩

/-- Witness for C4: an empty database (camera not found) and a database
with the camera but no lenses (lens not found). -/
theorem C4_profile_not_found_witness :
    (dbEmptyW.find_cameras initState.cammaker initState.cammodel = [] ∧
      query_lensfun dbEmptyW initState = (initState, .cameraNotFound)) ∧
    ((dbNoLensW.find_cameras initState.cammaker initState.cammodel).head? = some camW ∧
      lensQuery dbNoLensW camW initState.lens = [] ∧
      (query_lensfun dbNoLensW initState).2 = .lensNotFound) :=
  ⟨⟨rfl, ((C4_profile_not_found dbEmptyW initState).1 rfl).1⟩,
    ⟨rfl, rfl, ((C4_profile_not_found dbNoLensW initState).2 camW rfl rfl).1⟩⟩

/-- C5: on a successful resolve the camera is the first-ranked
`find_cameras` candidate and the lens is the first-ranked candidate of
a lookup scoped to that camera — filtered by the configured lens
identifier when it is non-empty, unfiltered when it is empty. -/
theorem C5_first_candidate_selected (db : LensfunDB) (s : ElementState)
    (c : Camera) (lm : Lens) (m : UndistMap)
    (hc : (db.find_cameras s.cammaker s.cammodel).head? = some c)
    (hl : (lensQuery db c s.lens).head? = some lm)
    (hg : db.geometry_distortion lm c.crop_factor s.width s.height
        s.focallength s.aperture s.distance s.reverse = some m) :
    query_lensfun db s =
      ({ s with cam := some c, lensmodel := some lm, undistCoords := some m }, .ok) ∧
      (s.lens ≠ "" → lensQuery db c s.lens = db.find_lenses c (some s.lens)) ∧
      (s.lens = "" → lensQuery db c s.lens = db.find_lenses c none) := by
  refine ⟨query_lensfun_eq_ok db s c lm m hc hl hg, ?_, ?_⟩
  · intro hne
    simp [lensQuery, hne]
  · intro he
    simp [lensQuery, he]

/-- Witness for C5 with the default configuration (empty lens
identifier) against a database holding one camera and one lens. -/
theorem C5_first_candidate_selected_witness :
    (dbW.find_cameras initState.cammaker initState.cammodel).head? = some camW ∧
      (lensQuery dbW camW initState.lens).head? = some lensW ∧
      (query_lensfun dbW initState).1.cam = some camW ∧
      (query_lensfun dbW initState).1.lensmodel = some lensW ∧
      (query_lensfun dbW initState).2 = QueryResult.ok := by
  refine ⟨rfl, rfl, ?_, ?_, ?_⟩ <;>
    rw [(C5_first_candidate_selected dbW initState camW lensW
      { height := 1080, width := 1920, coord := fun _ _ => (0, 0) } rfl rfl rfl).1]

/-- C2: a buffer-mapping failure or any other per-frame failure makes
`do_transform_ip` return an error result (instead of raising — the
embedding is total), leaves the element configuration state unchanged
and the buffer content unmodified, and the host still attempts every
subsequent frame: `process_frames` produces one independent result per
delivered buffer. -/
theorem C2_per_frame_error_isolation (env : Env) (s : ElementState)
    (bufs : List (Option Image)) :
    do_transform_ip env s none = (s, .ERROR, none) ∧
      (∀ b, (do_transform_ip env s b).1 = s) ∧
      (∀ frame, (do_transform_ip env s (some frame)).2.1 = .OK ∨
        (do_transform_ip env s (some frame)).2 = (.ERROR, some frame)) ∧
      process_frames env s bufs = bufs.map (fun b => (do_transform_ip env s b).2) ∧
      (process_frames env s bufs).length = bufs.length := by
  have hmap : process_frames env s bufs =
      bufs.map (fun b => (do_transform_ip env s b).2) := by
    induction bufs with
    | nil => rfl
    | cons b rest ih => simp [process_frames, ih]
  refine ⟨rfl, transform_state_eq env s, ?_, hmap, by rw [hmap, List.length_map]⟩
  intro frame
  simp only [do_transform_ip]
  repeat' split
  all_goals simp

/-- C1: for a buffer of the negotiated geometry, with a geometry-matching
undistortion map (and, when the grid flag is on, a geometry-matching
overlay), the in-place transform composites the overlay with frame
weight 1, overlay weight 7/10 and bias 0 exactly when the grid flag is
on, resamples through the map with nearest-neighbor interpolation,
writes the result back and succeeds, leaving the buffer dimensions
unchanged. -/
theorem C1_transform_pipeline (env : Env) (s : ElementState) (frame : Image) (m : UndistMap)
    (hf : frame.height = s.height) (hw : frame.width = s.width)
    (hm : s.undistCoords = some m) (hmh : m.height = s.height) (hmw : m.width = s.width) :
    (s.grid = false →
      do_transform_ip env s (some frame) =
        (s, .OK, some (env.cv.remap frame m .nearest)) ∧
      (env.cv.remap frame m .nearest).height = frame.height ∧
      (env.cv.remap frame m .nearest).width = frame.width) ∧
    (∀ ov, s.grid = true → s.overlay = some ov → ov.height = frame.height →
      ov.width = frame.width →
      do_transform_ip env s (some frame) =
        (s, .OK,
          some (env.cv.remap (env.cv.addWeighted frame 1 ov ((7 : Rat) / 10) 0) m .nearest)) ∧
      (env.cv.remap (env.cv.addWeighted frame 1 ov ((7 : Rat) / 10) 0) m .nearest).height =
        frame.height ∧
      (env.cv.remap (env.cv.addWeighted frame 1 ov ((7 : Rat) / 10) 0) m .nearest).width =
        frame.width) := by
  constructor
  · intro hg
    have h1 : (env.cv.remap frame m .nearest).height = frame.height := by
      rw [env.cv.remap_height, hmh, hf]
    have h2 : (env.cv.remap frame m .nearest).width = frame.width := by
      rw [env.cv.remap_width, hmw, hw]
    refine ⟨?_, h1, h2⟩
    simp only [do_transform_ip, hg, hm]
    rw [if_pos ⟨hf, hw⟩]
    simp only [Bool.false_eq_true, if_false]
    rw [if_pos ⟨h1, h2⟩]
  · intro ov hg hov hoh how
    have h1 : (env.cv.remap (env.cv.addWeighted frame 1 ov ((7 : Rat) / 10) 0) m
        .nearest).height = frame.height := by
      rw [env.cv.remap_height, hmh, hf]
    have h2 : (env.cv.remap (env.cv.addWeighted frame 1 ov ((7 : Rat) / 10) 0) m
        .nearest).width = frame.width := by
      rw [env.cv.remap_width, hmw, hw]
    refine ⟨?_, h1, h2⟩
    simp only [do_transform_ip, hg, hm, hov]
    rw [if_pos ⟨hf, hw⟩]
    simp only [if_true]
    rw [if_pos ⟨hoh, how⟩]
    simp only []
    rw [if_pos ⟨h1, h2⟩]

/-- Witness for C1 (grid disabled) on a 4×4 buffer with a matching map. -/
theorem C1_transform_pipeline_witness :
    frameW.height = sMapW.height ∧ frameW.width = sMapW.width ∧
      sMapW.undistCoords = some mapW ∧ sMapW.grid = false ∧
      do_transform_ip envW sMapW (some frameW) =
        (sMapW, .OK, some (envW.cv.remap frameW mapW .nearest)) :=
  ⟨rfl, rfl, rfl, rfl,
    ((C1_transform_pipeline envW sMapW frameW mapW rfl rfl rfl rfl rfl).1 rfl).1⟩

/-- C6: setting a recognized property only updates buffered state — the
resolved profiles, the undistortion map, the overlay and the geometry
are untouched, and no lookup or rebuild runs; the map is (re)built only
by `do_set_caps` (geometry negotiation), where it is computed from the
parameter values buffered at that moment. -/
theorem C6_property_writes_deferred (s : ElementState) :
    (∀ name v s', do_set_property s name v = some s' →
      s'.cam = s.cam ∧ s'.lensmodel = s.lensmodel ∧
      s'.undistCoords = s.undistCoords ∧ s'.overlay = s.overlay ∧
      s'.width = s.width ∧ s'.height = s.height) ∧
    (∀ (env : Env) (w h : Nat) (c : Camera) (lm : Lens) (m : UndistMap),
      (env.db.find_cameras s.cammaker s.cammodel).head? = some c →
      (lensQuery env.db c s.lens).head? = some lm →
      env.db.geometry_distortion lm c.crop_factor w h
        s.focallength s.aperture s.distance s.reverse = some m →
      (do_set_caps env s w h).1.undistCoords = some m) := by
  constructor
  · intro name v s' h
    unfold do_set_property at h
    split_ifs at h <;> cases v <;>
      simp only [PropValue.asFloat, PropValue.asBool, PropValue.asStr, Option.map_some',
        Option.map_none', Option.some.injEq, reduceCtorEq] at h <;>
      subst h <;> exact ⟨rfl, rfl, rfl, rfl, rfl, rfl⟩
  · intro env w h c lm m hc hl hg
    unfold do_set_caps
    dsimp only
    rw [query_lensfun_eq_ok env.db { s with width := w, height := h } c lm m hc hl hg]
    cases hgr : s.grid <;> simp [draw_grid, hgr]

/-- Witness for C6: setting the aperture leaves the derived state of a
configured element untouched, and a successful caps negotiation at 4×4
installs the freshly computed map. -/
theorem C6_property_writes_deferred_witness :
    do_set_property sMapW "aperture" (.float 4) =
      some { sMapW with aperture := 4 } ∧
      ({ sMapW with aperture := 4 } : ElementState).undistCoords = sMapW.undistCoords ∧
      (do_set_caps envW sMapW 4 4).1.undistCoords =
        some { height := 4, width := 4, coord := fun _ _ => (0, 0) } :=
  ⟨rfl,
    ((C6_property_writes_deferred sMapW).1 "aperture" (.float 4)
      { sMapW with aperture := 4 } rfl).2.2.1,
    (C6_property_writes_deferred sMapW).2 envW 4 4 camW lensW
      { height := 4, width := 4, coord := fun _ _ => (0, 0) } rfl rfl rfl⟩

/-- C7 as stated is false on the code: `do_set_caps` ignores the result
of `query_lensfun`, so after a configuration attempt that fails
(camera not found) a map left over from an earlier successful
configuration is still in place and the transform processes the frame
with the stale map, returning OK instead of failing fast. -/
theorem C7_failed_state_counterexample :
    (query_lensfun dbEmptyW { sMapW with width := 4, height := 4 }).2.success = false ∧
      (do_set_caps envEmptyW sMapW 4 4).1.undistCoords = some mapW ∧
      (do_transform_ip envEmptyW ((do_set_caps envEmptyW sMapW 4 4).1)
        (some frameW)).2.1 = FlowReturn.OK :=
  ⟨rfl, rfl, rfl⟩

/-- C7 (amended): while no undistortion map has ever been built
(`undistCoords` absent — the Unconfigured state), every transform
request fails fast with an error; but after a failed configuration
attempt a map from an earlier successful configuration is not
invalidated, and transforms keep using the stale map. -/
theorem C7_unconfigured_fails_fast (env : Env) (s : ElementState) (buf : Option Image)
    (h : s.undistCoords = none) :
    (do_transform_ip env s buf).2.1 = .ERROR := by
  cases buf with
  | none => rfl
  | some frame =>
    simp only [do_transform_ip, h]
    repeat' split
    all_goals rfl

/-- Witness for C7 (amended) on the unconfigured initial state. -/
theorem C7_unconfigured_fails_fast_witness :
    sW.undistCoords = none ∧
      (do_transform_ip envW sW (some frameW)).2.1 = FlowReturn.ERROR :=
  ⟨rfl, C7_unconfigured_fails_fast envW sW (some frameW) rfl⟩

/-- C8: with camera and lens resolved, `draw_grid` succeeds and stores a
frame-sized overlay obtained by rendering, onto a zero image, vertical
and horizontal grid lines at the seven 1/8 increments of width and
height plus three text lines: the camera identity, the lens identity,
and the optics summary "{focallength}mm, F{aperture}, {distance}m". -/
theorem C8_overlay_grid_and_text (env : Env) (s : ElementState) (c : Camera) (lm : Lens)
    (hc : s.cam = some c) (hl : s.lensmodel = some lm) :
    (∃ ov, draw_grid env s = ({ s with overlay := some ov }, true) ∧
      ov = (draw_grid_cmds env.fmt s c.pyStr lm.pyStr).foldl env.cv.render
        (zeros s.height s.width) ∧
      ov.height = s.height ∧ ov.width = s.width) ∧
    (∀ i, i < 7 →
      DrawCmd.line (s.width / 8 * (i + 1), 0) (s.width / 8 * (i + 1), s.height)
          (0, 0, 255) 5 ∈ draw_grid_cmds env.fmt s c.pyStr lm.pyStr ∧
      DrawCmd.line (0, s.height / 8 * (i + 1)) (s.width, s.height / 8 * (i + 1))
          (0, 0, 255) 5 ∈ draw_grid_cmds env.fmt s c.pyStr lm.pyStr) ∧
    DrawCmd.text c.pyStr (s.width / 8 + 100, s.height / 8 + 50) 1 (255, 255, 255) 5
        ∈ draw_grid_cmds env.fmt s c.pyStr lm.pyStr ∧
    DrawCmd.text lm.pyStr (s.width / 8 + 100, s.height / 8 + 100) 1 (255, 255, 255) 5
        ∈ draw_grid_cmds env.fmt s c.pyStr lm.pyStr ∧
    DrawCmd.text (env.fmt s.focallength ++ "mm, F" ++ env.fmt s.aperture ++ ", " ++
        env.fmt s.distance ++ "m")
        (s.width / 8 + 100, s.height / 8 + 150) 1 (255, 255, 255) 5
        ∈ draw_grid_cmds env.fmt s c.pyStr lm.pyStr := by
  refine ⟨?_, ?_, ?_, ?_, ?_⟩
  · refine ⟨_, ?_, rfl, ?_, ?_⟩
    · unfold draw_grid
      rw [hc, hl]
    · rw [foldl_render_height]
      rfl
    · rw [foldl_render_width]
      rfl
  · intro i hi
    constructor <;>
      · unfold draw_grid_cmds grid_line_cmds
        rw [List.mem_append]
        refine Or.inl ?_
        rw [List.mem_flatMap]
        exact ⟨i, by simpa using hi, by simp⟩
  · unfold draw_grid_cmds text_cmds
    simp
  · unfold draw_grid_cmds text_cmds
    simp
  · unfold draw_grid_cmds text_cmds
    simp

/-- Witness for C8 at 640×480: grid lines at x = 80 and x = 560,
y = 60 and y = 420 (the first and seventh 1/8 increments). -/
theorem C8_overlay_grid_and_text_witness :
    sGridW.cam = some camW ∧ sGridW.lensmodel = some lensW ∧
      DrawCmd.line (80, 0) (80, 480) (0, 0, 255) 5
        ∈ draw_grid_cmds envW.fmt sGridW camW.pyStr lensW.pyStr ∧
      DrawCmd.line (0, 60) (640, 60) (0, 0, 255) 5
        ∈ draw_grid_cmds envW.fmt sGridW camW.pyStr lensW.pyStr ∧
      DrawCmd.line (560, 0) (560, 480) (0, 0, 255) 5
        ∈ draw_grid_cmds envW.fmt sGridW camW.pyStr lensW.pyStr ∧
      DrawCmd.line (0, 420) (640, 420) (0, 0, 255) 5
        ∈ draw_grid_cmds envW.fmt sGridW camW.pyStr lensW.pyStr := by
  refine ⟨rfl, rfl, ?_, ?_, ?_, ?_⟩
  · exact ((C8_overlay_grid_and_text envW sGridW camW lensW rfl rfl).2.1 0 (by decide)).1
  · exact ((C8_overlay_grid_and_text envW sGridW camW lensW rfl rfl).2.1 0 (by decide)).2
  · exact ((C8_overlay_grid_and_text envW sGridW camW lensW rfl rfl).2.1 6 (by decide)).1
  · exact ((C8_overlay_grid_and_text envW sGridW camW lensW rfl rfl).2.1 6 (by decide)).2
